import Mathlib

/-!
Verification of the tutoring-marketplace request handlers.

The repository is a set of Python AWS-Lambda handlers.  Each handler is
embedded below as a pure Lean function over an explicit request value and,
where the handler writes, an explicit event trace or database state.
External collaborators (Secrets Manager credential fetch, the MySQL
connection itself, SQS transport, CloudWatch metrics, logging) are outside
the model: the embedding covers the handler logic that runs once a
connection is available, which is where every claim lives.  Branches that
only fire when an external collaborator fails are therefore not modelled.

Python JSON/database values are embedded as the inductive `Value`;
dictionaries as association lists; `dict.get` returns `vNone` when the key
is absent, while strict `d[k]` indexing is `lookup?` (a `none` result is
the KeyError path).  Python truthiness is `pyTruthy`, and the `int(...)`
coercion is `pyInt` (`none` is the raised `ValueError`/`TypeError`).
-/

namespace TutorApp

/-- A Python value as it appears in decoded JSON bodies and DictCursor
database rows.  `vDec` is `decimal.Decimal`, `vFloat` a Python float; both
carry their numeric payload as a rational (floating-point rounding is not
exercised by any handler). -/
inductive Value where
  | vNone
  | vBool (b : Bool)
  | vInt (n : Int)
  | vStr (s : String)
  | vDec (q : Rat)
  | vFloat (q : Rat)
  deriving DecidableEq, Repr

/-- Python truthiness, as used by `if not x` and `all([...])`. -/
def pyTruthy : Value → Bool
  | Value.vNone => false
  | Value.vBool b => b
  | Value.vInt n => n != 0
  | Value.vStr s => s != ""
  | Value.vDec q => q != 0
  | Value.vFloat q => q != 0

/-- Strict dictionary lookup `d[k]`: `none` is a raised KeyError. -/
def lookup? (d : List (String × Value)) (k : String) : Option Value :=
  (d.find? (fun p => p.1 = k)).map (fun p => p.2)

/-- Dictionary access `d.get(k)`, defaulting to Python None. -/
def pyGet (d : List (String × Value)) (k : String) : Value :=
  match lookup? d k with
  | some v => v
  | none => Value.vNone

/-- Truncation of a rational toward zero, the behaviour of Python `int()`
on a numeric argument. -/
def ratTrunc (q : Rat) : Int :=
  if 0 ≤ q then ⌊q⌋ else ⌈q⌉

/-- A non-empty all-digit character list read as a natural number. -/
def parseDigits : List Char → Option Nat
  | [] => none
  | cs =>
    if cs.all Char.isDigit then
      some (cs.foldl (fun n c => 10 * n + (c.toNat - 48)) 0)
    else none

/-- Python `int(...)` applied to a string: an optional sign followed by
decimal digits; anything else raises ValueError (`none`). -/
def strToInt (s : String) : Option Int :=
  match s.toList with
  | [] => none
  | '-' :: cs => (parseDigits cs).map (fun n => -(n : Int))
  | '+' :: cs => (parseDigits cs).map (fun n => (n : Int))
  | cs => (parseDigits cs).map (fun n => (n : Int))

/-- The Python `int(...)` coercion; `none` is the raised exception
(ValueError on a non-numeric string, TypeError on None). -/
def pyInt : Value → Option Int
  | Value.vNone => none
  | Value.vBool b => some (if b then 1 else 0)
  | Value.vInt n => some n
  | Value.vStr s => strToInt s
  | Value.vDec q => some (ratTrunc q)
  | Value.vFloat q => some (ratTrunc q)

/-- The payload handed to `json.dumps` when a response is built: either a
plain JSON object or a list of database rows (the read handlers serialize
the row list directly). -/
inductive Body where
  | obj (fields : List (String × Value))
  | rows (rs : List (List (String × Value)))
  deriving DecidableEq, Repr

/-- The uniform response envelope `statusCode`/`headers`/`body`. A handler
that builds its response dict without a `headers` key is modelled with an
empty header list. -/
structure Response where
  statusCode : Nat
  headers : List (String × String)
  body : Body
  deriving DecidableEq, Repr

/-- An inbound event: the HTTP method when present, the decoded JSON body
(`none` when the `body` key is absent or holds an empty/falsy payload, the
condition the write handlers reject up front), and the query string
parameters (absent parameters simply do not occur in the list, matching
`event.get("queryStringParameters", {}) or {}`). -/
structure Event where
  httpMethod : Option String
  body : Option (List (String × Value))
  query : List (String × String)
  deriving DecidableEq, Repr

end TutorApp

namespace TutorApp.GerarPagamento

/-- The CORS header dict this module attaches to every response it
builds, both in the OPTIONS short-circuit and in `cors_response`. -/
def corsHeaders : List (String × String) :=
  [("Access-Control-Allow-Origin", "*"),
   ("Access-Control-Allow-Methods", "OPTIONS, GET, POST"),
   ("Access-Control-Allow-Headers", "Content-Type")]

/-- Source `cors_response`: wraps a status and body with the CORS
headers. -/
def cors_response (status_code : Nat) (body : List (String × Value)) : Response :=
  Response.mk status_code corsHeaders (Body.obj body)

/-- One observable side effect of the payment-creation flow, in program
order: the INSERT execution, the transaction commit, and the SQS publish
carrying the settlement-request message. -/
inductive PayEvent where
  | execInsert (id_conexao valor forma_pagamento : Value)
  | dbCommit
  | sqsPublish (msg : List (String × Value))
  deriving DecidableEq, Repr

/-- Source `processar_pagamento`: inserts the Pendente payment row,
commits, reads the generated id, then publishes the settlement-request
message to SQS.  Returns the generated id and the emitted effect trace in
program order.  `nextId` stands for the AUTO_INCREMENT id the database
assigns (`cursor.lastrowid`). -/
def processar_pagamento (nextId : Int) (id_conexao valor forma_pagamento : Value) :
    Int × List PayEvent :=
  (nextId,
   [PayEvent.execInsert id_conexao valor forma_pagamento,
    PayEvent.dbCommit,
    PayEvent.sqsPublish
      [("id_pagamento", Value.vInt nextId),
       ("id_conexao", id_conexao),
       ("valor", valor),
       ("forma_pagamento", forma_pagamento),
       ("status_pagamento", Value.vStr "Pendente")]])

/-- The required-field check `all([id_conexao, valor, forma_pagamento])`
applied to the decoded body: Python `all` tests the truthiness of each
entry. -/
def camposPresentes (body : List (String × Value)) : Bool :=
  pyTruthy (pyGet body "id_conexao") && pyTruthy (pyGet body "valor") &&
    pyTruthy (pyGet body "forma_pagamento")

/-- Source `lambda_handler` of the payment-creation module: OPTIONS
short-circuit, empty-body check, required-field truthiness check via
`all([...])`, then `processar_pagamento` and the 201 response.  Returns
the response together with the emitted effect trace. -/
def lambda_handler (ev : Event) (nextId : Int) : Response × List PayEvent :=
  if ev.httpMethod = some "OPTIONS" then
    (Response.mk 200 corsHeaders (Body.obj [("message", Value.vStr "CORS OK!")]), [])
  else
    match ev.body with
    | none => (cors_response 400 [("error", Value.vStr "Corpo da requisicao esta vazio.")], [])
    | some body =>
      let id_conexao := pyGet body "id_conexao"
      let valor := pyGet body "valor"
      let forma_pagamento := pyGet body "forma_pagamento"
      if !(camposPresentes body) then
        (cors_response 400 [("error", Value.vStr "Todos os campos sao obrigatorios.")], [])
      else
        let r := processar_pagamento nextId id_conexao valor forma_pagamento
        (cors_response 201
          [("message", Value.vStr "Pagamento registrado e enviado para processamento!"),
           ("id_pagamento", Value.vInt r.1)], r.2)

/-- Scans a trace left to right and checks that every SQS publish is
strictly preceded by a database commit; the flag records whether a commit
has been seen so far. -/
def publishAfterCommit : Bool → List PayEvent → Bool
  | _, [] => true
  | _, PayEvent.dbCommit :: rest => publishAfterCommit true rest
  | seen, PayEvent.sqsPublish _ :: rest => seen && publishAfterCommit seen rest
  | seen, PayEvent.execInsert _ _ _ :: rest => publishAfterCommit seen rest

/-- Does the trace contain an SQS publish at all. -/
def hasPublish (tr : List PayEvent) : Bool :=
  tr.any fun e =>
    match e with
    | PayEvent.sqsPublish _ => true
    | _ => false

end TutorApp.GerarPagamento

namespace TutorApp.ProcessaPagamento

/-- A row of the Pagamentos table, with the columns the settlement worker
touches; `id_pagamento` is kept as a `Value` because the UPDATE matches it
against the value carried in the message. -/
structure PaymentRow where
  id_pagamento : Value
  id_conexao : Value
  valor : Value
  forma_pagamento : Value
  status_pagamento : String
  deriving DecidableEq, Repr

/-- The effect of the UPDATE on one row: rows matching the WHERE clause
get the new status, all other rows are untouched. -/
def updRow (id_pagamento : Value) (status_pagamento : String) (r : PaymentRow) : PaymentRow :=
  if r.id_pagamento = id_pagamento then
    PaymentRow.mk r.id_pagamento r.id_conexao r.valor r.forma_pagamento status_pagamento
  else r

/-- Source `atualizar_status_pagamento`: executes
`UPDATE Pagamentos SET status_pagamento = s WHERE id_pagamento = id` and
commits; modelled as the induced transformation of the table. -/
def atualizar_status_pagamento (db : List PaymentRow) (id_pagamento : Value)
    (status_pagamento : String) : List PaymentRow :=
  db.map (updRow id_pagamento status_pagamento)

/-- Source `processar_pagamento` of the worker: simulates the PayPal call
by drawing `random.choice(["Pago", "Cancelado"])`.  The two-way random
draw is an oracle Boolean argument, so the rest of the worker is
deterministic. -/
def processar_pagamento (draw : Bool) : String :=
  if draw then "Pago" else "Cancelado"

/-- One SQS record as the worker sees it: either `json.loads` of its body
fails (`malformed`), or it yields the decoded message dict. -/
inductive SqsRecord where
  | malformed (raw : String)
  | decoded (msg : List (String × Value))
  deriving DecidableEq, Repr

/-- The per-record outcome: the except branch logged an error, or the
status update ran with the given key and terminal status. -/
inductive RecResult where
  | errored
  | updated (id_pagamento : Value) (status_pagamento : String)
  deriving DecidableEq, Repr

/-- Does the try block of the record loop raise before the update: the
body fails to decode, or `mensagem["id_pagamento"]` raises KeyError. -/
def parseFails : SqsRecord → Bool
  | SqsRecord.malformed _ => true
  | SqsRecord.decoded msg => (lookup? msg "id_pagamento").isNone

/-- The body of the record loop: decode the record, read
`mensagem["id_pagamento"]`, draw the settlement outcome, update the row.
Any raise inside is caught by the per-record except branch, which logs and
moves on, leaving the database untouched. -/
def processRecord (draw : Bool) (db : List PaymentRow) :
    SqsRecord → List PaymentRow × RecResult
  | SqsRecord.malformed _ => (db, RecResult.errored)
  | SqsRecord.decoded msg =>
    match lookup? msg "id_pagamento" with
    | none => (db, RecResult.errored)
    | some pid =>
      let st := processar_pagamento draw
      (atualizar_status_pagamento db pid st, RecResult.updated pid st)

/-- The record loop over the batch, threading the database and drawing a
fresh oracle Boolean for each record; collects the per-record outcomes in
order. -/
def runBatch (draws : Nat → Bool) (db : List PaymentRow) :
    List SqsRecord → List PaymentRow × List RecResult
  | [] => (db, [])
  | r :: rs =>
    let step := processRecord (draws 0) db r
    let rest := runBatch (fun n => draws (n + 1)) step.1 rs
    (rest.1, step.2 :: rest.2)

/-- The CORS headers of the local `cors_response` helper. -/
def corsHeaders : List (String × String) :=
  [("Access-Control-Allow-Origin", "*"),
   ("Access-Control-Allow-Methods", "OPTIONS, GET, POST"),
   ("Access-Control-Allow-Headers", "Content-Type")]

/-- Source `cors_response` of the worker module. -/
def cors_response (status_code : Nat) (body : List (String × Value)) : Response :=
  Response.mk status_code corsHeaders (Body.obj body)

/-- Source `lambda_handler` of the settlement worker: with a live
connection, either the event has no `Records` key (modelled as `none`) and
the worker answers 200 immediately, or it runs the record loop and answers
200.  Returns the final table, the per-record outcomes, and the
response. -/
def lambda_handler (draws : Nat → Bool) (db : List PaymentRow)
    (records : Option (List SqsRecord)) :
    List PaymentRow × List RecResult × Response :=
  match records with
  | none =>
    (db, [], cors_response 200
      [("message", Value.vStr "Nenhuma solicitacao de pagamento encontrada.")])
  | some rs =>
    let out := runBatch draws db rs
    (out.1, out.2, cors_response 200
      [("message", Value.vStr "Pagamentos processados com sucesso.")])

end TutorApp.ProcessaPagamento

namespace TutorApp.CadastrarAluno

/-- The INSERT executed by the student-registration handler. -/
inductive InsEvent where
  | insertAluno (nome cpf : Value)
  deriving DecidableEq, Repr

/-- A response dict built with only `statusCode` and `body`, as this
module does everywhere: the headers key is absent. -/
def plain_response (status_code : Nat) (body : List (String × Value)) : Response :=
  Response.mk status_code [] (Body.obj body)

/-- Source `lambda_handler` of student registration: body-presence check,
key-presence check for `nome` and `cpf` (membership, not truthiness),
INSERT, 201.  Returns the response and the insert trace. -/
def lambda_handler (ev : Event) : Response × List InsEvent :=
  match ev.body with
  | none =>
    (plain_response 400 [("error", Value.vStr "Requisicao invalida, body ausente")], [])
  | some body =>
    if (lookup? body "nome").isNone || (lookup? body "cpf").isNone then
      (plain_response 400 [("error", Value.vStr "Campos nome e cpf sao obrigatorios")], [])
    else
      (plain_response 201 [("message", Value.vStr "Aluno cadastrado com sucesso")],
       [InsEvent.insertAluno (pyGet body "nome") (pyGet body "cpf")])

end TutorApp.CadastrarAluno

namespace TutorApp.AtualizarAluno

/-- A key of a Python dictionary: the DictCursor rows are keyed by the
string column label, while the source indexes the fetched row with the
integer 0. -/
inductive PyKey where
  | kStr (s : String)
  | kInt (n : Int)
  deriving DecidableEq, Repr

/-- Strict indexing of a keyed dictionary; `none` is a raised
KeyError. -/
def dictIndex (d : List (PyKey × Value)) (k : PyKey) : Option Value :=
  (d.find? (fun p => p.1 = k)).map (fun p => p.2)

/-- A row of the Alunos table as far as this handler touches it. -/
structure AlunoRow where
  cpf : Value
  nome : Value
  deriving DecidableEq, Repr

/-- The COUNT(*) the existence query computes for a given cpf. -/
def countAlunos (db : List AlunoRow) (cpf : Value) : Int :=
  ((db.filter (fun r => r.cpf = cpf)).length : Int)

/-- The Python comparison `v > 0` on a fetched value (a raise on a
non-numeric value would land in the same except branch as a KeyError). -/
def pyGtZero : Value → Bool
  | Value.vInt n => decide (0 < n)
  | Value.vDec q => decide (0 < q)
  | Value.vFloat q => decide (0 < q)
  | _ => false

/-- Source `aluno_existe`: runs `SELECT COUNT(*) FROM Alunos WHERE cpf`,
fetches one row and evaluates `result[0] > 0`.  The connection was opened
with a DictCursor, so the fetched row is a dictionary keyed by the column
label `COUNT(*)`; the integer index 0 is looked up as a dictionary key,
and a failed lookup is the KeyError caught by the except branch, which
returns False. -/
def aluno_existe (db : List AlunoRow) (cpf : Value) : Bool :=
  let result : List (PyKey × Value) :=
    [(PyKey.kStr "COUNT(*)", Value.vInt (countAlunos db cpf))]
  match dictIndex result (PyKey.kInt 0) with
  | some v => pyGtZero v
  | none => false

/-- A response dict built with only `statusCode` and `body`, as this
module does everywhere: the headers key is absent. -/
def plain_response (status_code : Nat) (body : List (String × Value)) : Response :=
  Response.mk status_code [] (Body.obj body)

/-- Source `lambda_handler` of student update: body-presence check, cpf
key check, existence check, then the dynamically built UPDATE.  Returns
the response and the list of SQL statements executed against the
database. -/
def lambda_handler (db : List AlunoRow) (ev : Event) : Response × List String :=
  match ev.body with
  | none =>
    (plain_response 400 [("error", Value.vStr "Requisicao invalida, body ausente")], [])
  | some body =>
    if (lookup? body "cpf").isNone then
      (plain_response 400 [("error", Value.vStr "Campo cpf e obrigatorio para atualizacao")], [])
    else
      let cpf := pyGet body "cpf"
      let nome := pyGet body "nome"
      if !(aluno_existe db cpf) then
        (plain_response 404 [("error", Value.vStr "Aluno nao encontrado")], [])
      else
        let fields_to_update := if pyTruthy nome then ["nome = %s"] else []
        let sql :=
          "UPDATE Alunos SET " ++ String.intercalate ", " fields_to_update ++ " WHERE cpf = %s"
        (plain_response 200 [("message", Value.vStr "Dados do aluno atualizados com sucesso")],
         [sql])

end TutorApp.AtualizarAluno

namespace TutorApp.CriaConexao

/-- The INSERT executed by the engagement-creation handler: tutor id,
subject id and hours after the `int(...)` coercions, the student id as it
arrived (the source never coerces it), and the literal status. -/
inductive ConnEvent where
  | insertConexao (id_professor : Int) (id_aluno : Value) (id_materia : Int)
      (horas_contratadas : Int) (status : String)
  deriving DecidableEq, Repr

/-- The full CORS header dict this module uses on OPTIONS, 200 and 500
responses. -/
def corsHeadersFull : List (String × String) :=
  [("Access-Control-Allow-Origin", "*"),
   ("Access-Control-Allow-Methods", "OPTIONS, POST, GET"),
   ("Access-Control-Allow-Headers", "Content-Type")]

/-- The header dict of the two 400 responses: only the origin header. -/
def originOnly : List (String × String) :=
  [("Access-Control-Allow-Origin", "*")]

/-- The required-field check
`all([id_professor, id_aluno, id_materia, horas_contratadas])` applied to
the decoded body. -/
def camposPresentes (body : List (String × Value)) : Bool :=
  pyTruthy (pyGet body "id_professor") && pyTruthy (pyGet body "id_aluno") &&
    pyTruthy (pyGet body "id_materia") && pyTruthy (pyGet body "horas_contratadas")

/-- Source `lambda_handler` of engagement creation: OPTIONS
short-circuit, empty-body check, truthiness check of the four fields via
`all([...])`, then `int(...)` on tutor id, subject id and hours in source
order (a raise is caught by the top-level except branch and answered as
500 with `str(e)`, modelled by a fixed marker body), then the INSERT and
a 200 response.  The student id is never coerced.  `nextId` stands for
`cursor.lastrowid`. -/
def lambda_handler (ev : Event) (nextId : Int) : Response × List ConnEvent :=
  if ev.httpMethod = some "OPTIONS" then
    (Response.mk 200 corsHeadersFull (Body.obj [("message", Value.vStr "CORS OK!")]), [])
  else
    match ev.body with
    | none =>
      (Response.mk 400 originOnly
        (Body.obj [("error", Value.vStr "Corpo da requisicao esta vazio.")]), [])
    | some body =>
      let id_professor := pyGet body "id_professor"
      let id_aluno := pyGet body "id_aluno"
      let id_materia := pyGet body "id_materia"
      let horas_contratadas := pyGet body "horas_contratadas"
      if !(camposPresentes body) then
        (Response.mk 400 originOnly
          (Body.obj [("error", Value.vStr "Todos os campos sao obrigatorios.")]), [])
      else
        match pyInt id_professor with
        | none =>
          (Response.mk 500 corsHeadersFull
            (Body.obj [("error", Value.vStr "invalid literal for int with base 10")]), [])
        | some p =>
          match pyInt id_materia with
          | none =>
            (Response.mk 500 corsHeadersFull
              (Body.obj [("error", Value.vStr "invalid literal for int with base 10")]), [])
          | some m =>
            match pyInt horas_contratadas with
            | none =>
              (Response.mk 500 corsHeadersFull
                (Body.obj [("error", Value.vStr "invalid literal for int with base 10")]), [])
            | some h =>
              (Response.mk 200 corsHeadersFull
                (Body.obj [("message", Value.vStr "Conexao criada com sucesso!"),
                           ("id_conexao", Value.vInt nextId)]),
               [ConnEvent.insertConexao p id_aluno m h "Ativo"])

end TutorApp.CriaConexao

namespace TutorApp.Reads

/-- Is a value a `decimal.Decimal`. -/
def isDec : Value → Bool
  | Value.vDec _ => true
  | _ => false

/-- The per-field effect of the conversion loop: `float(value)` on a
Decimal value, identity on everything else. -/
def convVal : Value → Value
  | Value.vDec q => Value.vFloat q
  | v => v

/-- Source `convert_decimal_fields` (textually identical in the tutor
search, payments-by-student and engagements-by-student modules): walks the
fetched rows and replaces every Decimal field value by `float(value)`,
leaving every other field alone. -/
def convert_decimal_fields (rows : List (List (String × Value))) :
    List (List (String × Value)) :=
  rows.map fun row => row.map fun kv => (kv.1, convVal kv.2)

/-- The CORS header dict of the OPTIONS short-circuit in the two
by-student read modules. -/
def corsHeadersGet : List (String × String) :=
  [("Access-Control-Allow-Origin", "*"),
   ("Access-Control-Allow-Methods", "OPTIONS, GET"),
   ("Access-Control-Allow-Headers", "Content-Type")]

/-- The header dict of the read 200/500 responses: the CORS headers plus
a Content-Type entry. -/
def corsHeadersGetCT : List (String × String) :=
  corsHeadersGet ++ [("Content-Type", "application/json")]

/-- The origin-only header dict of the read 400 responses. -/
def originOnly : List (String × String) :=
  [("Access-Control-Allow-Origin", "*")]

/-- Query-parameter lookup `params.get(k)`. -/
def getParam (q : List (String × String)) (k : String) : Option String :=
  (q.find? (fun p => p.1 = k)).map (fun p => p.2)

/-- The truthiness test `if not id_aluno` on an optional string
parameter. -/
def paramTruthy (o : Option String) : Bool :=
  match o with
  | none => false
  | some s => s != ""

/-- Source `lambda_handler` of payments-by-student: OPTIONS
short-circuit, required `id_aluno` parameter (truthiness), then the join
query; `rows` is the fetched result set of that query, and the 200 body
serializes `convert_decimal_fields` of it. -/
def getpagamentos_handler (ev : Event) (rows : List (List (String × Value))) : Response :=
  if ev.httpMethod = some "OPTIONS" then
    Response.mk 200 corsHeadersGet (Body.obj [("message", Value.vStr "CORS OK!")])
  else
    if !(paramTruthy (getParam ev.query "id_aluno")) then
      Response.mk 400 originOnly
        (Body.obj [("error", Value.vStr "O parametro id_aluno e obrigatorio.")])
    else
      Response.mk 200 corsHeadersGetCT (Body.rows (convert_decimal_fields rows))

/-- Source `lambda_handler` of engagements-by-student, same shape as the
payments query. -/
def getconexoes_handler (ev : Event) (rows : List (List (String × Value))) : Response :=
  if ev.httpMethod = some "OPTIONS" then
    Response.mk 200 corsHeadersGet (Body.obj [("message", Value.vStr "CORS OK!")])
  else
    if !(paramTruthy (getParam ev.query "id_aluno")) then
      Response.mk 400 originOnly
        (Body.obj [("error", Value.vStr "O parametro id_aluno e obrigatorio.")])
    else
      Response.mk 200 corsHeadersGetCT (Body.rows (convert_decimal_fields rows))

/-- Source `lambda_handler` of tutor search: no OPTIONS branch and no
required parameter; the optional subject filter only shapes the SQL, so
with `rows` standing for the fetched result set the handler always
answers 200 with the converted rows. -/
def buscar_professores_handler (rows : List (List (String × Value))) : Response :=
  Response.mk 200 corsHeadersGetCT (Body.rows (convert_decimal_fields rows))

/-- No Decimal value occurs anywhere in a row list. -/
def noDecRows (rows : List (List (String × Value))) : Bool :=
  rows.all fun row => row.all fun kv => !(isDec kv.2)

end TutorApp.Reads

namespace TutorApp

/-! Concrete inputs used by witnesses and counterexamples. -/

/-- A well-formed payment-creation request body. -/
def bodyPay : List (String × Value) :=
  [("id_conexao", Value.vInt 7), ("valor", Value.vDec 150), ("forma_pagamento", Value.vStr "pix")]

/-- C1 — in payment creation, for every non-preflight request whose
engagement id, amount and payment method are all present, the emitted
effect trace contains the SQS publish and every publish in it is strictly
preceded by the database commit of the row insert. -/
theorem c1_commit_before_publish (ev : Event) (nextId : Int)
    (body : List (String × Value))
    (hm : ev.httpMethod ≠ some "OPTIONS")
    (hb : ev.body = some body)
    (h1 : pyTruthy (pyGet body "id_conexao") = true)
    (h2 : pyTruthy (pyGet body "valor") = true)
    (h3 : pyTruthy (pyGet body "forma_pagamento") = true) :
    GerarPagamento.hasPublish (GerarPagamento.lambda_handler ev nextId).2 = true ∧
    GerarPagamento.publishAfterCommit false (GerarPagamento.lambda_handler ev nextId).2 = true := by
  simp [GerarPagamento.lambda_handler, GerarPagamento.camposPresentes, hm, hb, h1, h2, h3,
    GerarPagamento.processar_pagamento, GerarPagamento.hasPublish,
    GerarPagamento.publishAfterCommit]

/-- C1 witness: the property at a concrete request. -/
theorem c1_commit_before_publish_witness :
    GerarPagamento.hasPublish
      (GerarPagamento.lambda_handler (Event.mk none (some bodyPay) []) 1).2 = true ∧
    GerarPagamento.publishAfterCommit false
      (GerarPagamento.lambda_handler (Event.mk none (some bodyPay) []) 1).2 = true :=
  c1_commit_before_publish (Event.mk none (some bodyPay) []) 1 bodyPay
    (by decide) rfl (by decide) (by decide) (by decide)

/-- Applying the row update twice is the same as applying it once. -/
theorem updRow_idem (id_pagamento : Value) (status : String) (r : ProcessaPagamento.PaymentRow) :
    ProcessaPagamento.updRow id_pagamento status (ProcessaPagamento.updRow id_pagamento status r) =
      ProcessaPagamento.updRow id_pagamento status r := by
  unfold ProcessaPagamento.updRow
  by_cases h : r.id_pagamento = id_pagamento <;> simp [h]

/-- A row whose status already has the target value is untouched by the
row update. -/
theorem updRow_noop (id_pagamento : Value) (status : String) (r : ProcessaPagamento.PaymentRow)
    (h : r.id_pagamento = id_pagamento → r.status_pagamento = status) :
    ProcessaPagamento.updRow id_pagamento status r = r := by
  unfold ProcessaPagamento.updRow
  by_cases hid : r.id_pagamento = id_pagamento
  · cases r
    simp_all
  · simp [hid]

/-- C7 — the settlement status update is idempotent by value: updating to
a status twice gives the same table as updating once, and updating a
table in which every matching row already has that status leaves the
table unchanged. -/
theorem c7_status_update_idempotent (db : List ProcessaPagamento.PaymentRow)
    (id_pagamento : Value) (status : String) :
    ProcessaPagamento.atualizar_status_pagamento
        (ProcessaPagamento.atualizar_status_pagamento db id_pagamento status)
        id_pagamento status =
      ProcessaPagamento.atualizar_status_pagamento db id_pagamento status ∧
    ((∀ r ∈ db, r.id_pagamento = id_pagamento → r.status_pagamento = status) →
      ProcessaPagamento.atualizar_status_pagamento db id_pagamento status = db) := by
  constructor
  · unfold ProcessaPagamento.atualizar_status_pagamento
    rw [List.map_map]
    exact congrArg (fun f => List.map f db)
      (funext fun r => updRow_idem id_pagamento status r)
  · intro h
    unfold ProcessaPagamento.atualizar_status_pagamento
    induction db with
    | nil => rfl
    | cons r rs ih =>
      have hr := updRow_noop id_pagamento status r (h r (by simp))
      have hrs := ih (fun x hx hid => h x (by simp [hx]) hid)
      simp [hr, hrs]

/-- A one-row Pagamentos table already in the Pago state. -/
def dbPago : List ProcessaPagamento.PaymentRow :=
  [ProcessaPagamento.PaymentRow.mk (Value.vInt 1) (Value.vInt 7) (Value.vDec 150)
    (Value.vStr "pix") "Pago"]

/-- C7 witness: the property at a concrete table. -/
theorem c7_status_update_idempotent_witness :
    ProcessaPagamento.atualizar_status_pagamento
        (ProcessaPagamento.atualizar_status_pagamento dbPago (Value.vInt 1) "Pago")
        (Value.vInt 1) "Pago" =
      ProcessaPagamento.atualizar_status_pagamento dbPago (Value.vInt 1) "Pago" ∧
    ProcessaPagamento.atualizar_status_pagamento dbPago (Value.vInt 1) "Pago" = dbPago :=
  ⟨(c7_status_update_idempotent dbPago (Value.vInt 1) "Pago").1,
   (c7_status_update_idempotent dbPago (Value.vInt 1) "Pago").2 (by decide)⟩

/-- The record loop processes every record of the batch: it produces one
outcome per record, in order, and a record whose decode or key access
raises is answered with the logged error outcome. -/
theorem runBatch_isolates (draws : Nat → Bool) (db : List ProcessaPagamento.PaymentRow)
    (rs : List ProcessaPagamento.SqsRecord) :
    (ProcessaPagamento.runBatch draws db rs).2.length = rs.length ∧
    List.Forall₂
      (fun r res => ProcessaPagamento.parseFails r = true →
        res = ProcessaPagamento.RecResult.errored)
      rs (ProcessaPagamento.runBatch draws db rs).2 := by
  induction rs generalizing draws db with
  | nil => simp [ProcessaPagamento.runBatch]
  | cons r rs ih =>
    have step := ih (fun n => draws (n + 1)) (ProcessaPagamento.processRecord (draws 0) db r).1
    refine ⟨by simp [ProcessaPagamento.runBatch, step.1], ?_⟩
    refine List.Forall₂.cons ?_ step.2
    cases r with
    | malformed raw => simp [ProcessaPagamento.processRecord]
    | decoded msg =>
      intro hf
      simp only [ProcessaPagamento.parseFails, Option.isNone_iff_eq_none] at hf
      simp [ProcessaPagamento.processRecord, hf]

/-- C2 — for every settlement-worker batch of at least one record, the
invocation acknowledges success with a 200 response, produces exactly one
per-record outcome for every record of the batch, and a record whose
parsing raises is reported as the per-record error outcome while the
remaining records are still processed. -/
theorem c2_worker_batch_isolation (draws : Nat → Bool)
    (db : List ProcessaPagamento.PaymentRow)
    (rs : List ProcessaPagamento.SqsRecord) (_hne : rs ≠ []) :
    (ProcessaPagamento.lambda_handler draws db (some rs)).2.2.statusCode = 200 ∧
    (ProcessaPagamento.lambda_handler draws db (some rs)).2.1.length = rs.length ∧
    List.Forall₂
      (fun r res => ProcessaPagamento.parseFails r = true →
        res = ProcessaPagamento.RecResult.errored)
      rs (ProcessaPagamento.lambda_handler draws db (some rs)).2.1 := by
  have h := runBatch_isolates draws db rs
  exact ⟨rfl, h.1, h.2⟩

/-- A two-record batch whose first record is malformed. -/
def batchMixed : List ProcessaPagamento.SqsRecord :=
  [ProcessaPagamento.SqsRecord.malformed "not json",
   ProcessaPagamento.SqsRecord.decoded
     [("id_pagamento", Value.vInt 1), ("id_conexao", Value.vInt 7),
      ("valor", Value.vDec 150), ("forma_pagamento", Value.vStr "pix"),
      ("status_pagamento", Value.vStr "Pendente")]]

/-- C2 witness: the property at a concrete mixed batch. -/
theorem c2_worker_batch_isolation_witness :
    (ProcessaPagamento.lambda_handler (fun _ => true) dbPago
        (some batchMixed)).2.2.statusCode = 200 ∧
    (ProcessaPagamento.lambda_handler (fun _ => true) dbPago (some batchMixed)).2.1.length =
      batchMixed.length ∧
    List.Forall₂
      (fun r res => ProcessaPagamento.parseFails r = true →
        res = ProcessaPagamento.RecResult.errored)
      batchMixed
      (ProcessaPagamento.lambda_handler (fun _ => true) dbPago (some batchMixed)).2.1 :=
  c2_worker_batch_isolation (fun _ => true) dbPago batchMixed (by simp [batchMixed])

/-- A one-row Alunos table holding the student the update requests will
name. -/
def dbAluno : List AtualizarAluno.AlunoRow :=
  [AtualizarAluno.AlunoRow.mk (Value.vStr "123") (Value.vStr "Ana")]

/-- An update request body carrying only the national ID. -/
def bodyCpfOnly : List (String × Value) :=
  [("cpf", Value.vStr "123")]

/-- C4 — the existence check of the student-update handler is broken by
its dictionary cursor: it returns False on every table and every cpf, and
the handler therefore answers 404 on every request that reaches the
lookup, existing students included. -/
theorem c4_update_always_404 (db : List AtualizarAluno.AlunoRow) (hm : Option String)
    (body : List (String × Value))
    (hcpf : (lookup? body "cpf").isSome = true) :
    AtualizarAluno.aluno_existe db (pyGet body "cpf") = false ∧
    (AtualizarAluno.lambda_handler db (Event.mk hm (some body) [])).1.statusCode = 404 := by
  have hex : AtualizarAluno.aluno_existe db (pyGet body "cpf") = false := by
    simp [AtualizarAluno.aluno_existe, AtualizarAluno.dictIndex]
  refine ⟨hex, ?_⟩
  cases hl : lookup? body "cpf" with
  | none => simp [hl] at hcpf
  | some v =>
    simp [AtualizarAluno.lambda_handler, hl, hex, AtualizarAluno.plain_response]

/-- C4 witness: the 404 answer on a table that does contain the requested
student. -/
theorem c4_update_always_404_witness :
    AtualizarAluno.aluno_existe dbAluno (pyGet bodyCpfOnly "cpf") = false ∧
    (AtualizarAluno.lambda_handler dbAluno (Event.mk none (some bodyCpfOnly) [])).1.statusCode =
      404 :=
  c4_update_always_404 dbAluno none bodyCpfOnly (by decide)

/-- C3 counterexample — a request that supplies the national ID of an
existing student and no updatable field is answered 404, which is neither
a no-op success nor a ValidationError. -/
theorem c3_counterexample :
    (AtualizarAluno.lambda_handler dbAluno (Event.mk none (some bodyCpfOnly) [])).1.statusCode =
      404 ∧
    (404 : Nat) ≠ 200 ∧ (404 : Nat) ≠ 400 := by
  decide

/-- C3 amended — for every student-update request that supplies the
national ID but no updatable field, the handler answers 404 (the
existence check fails on every input) and executes no UPDATE statement at
all, so in particular no malformed empty-SET UPDATE reaches the
database. -/
theorem c3_no_empty_update (db : List AtualizarAluno.AlunoRow) (hm : Option String)
    (body : List (String × Value))
    (hcpf : (lookup? body "cpf").isSome = true)
    (_hnome : pyTruthy (pyGet body "nome") = false) :
    (AtualizarAluno.lambda_handler db (Event.mk hm (some body) [])).1.statusCode = 404 ∧
    (AtualizarAluno.lambda_handler db (Event.mk hm (some body) [])).2 = [] := by
  have hex : AtualizarAluno.aluno_existe db (pyGet body "cpf") = false := by
    simp [AtualizarAluno.aluno_existe, AtualizarAluno.dictIndex]
  cases hl : lookup? body "cpf" with
  | none => simp [hl] at hcpf
  | some v =>
    simp [AtualizarAluno.lambda_handler, hl, hex, AtualizarAluno.plain_response]

/-- C3 witness: the amended behaviour at a concrete request. -/
theorem c3_no_empty_update_witness :
    (AtualizarAluno.lambda_handler dbAluno (Event.mk none (some bodyCpfOnly) [])).1.statusCode =
      404 ∧
    (AtualizarAluno.lambda_handler dbAluno (Event.mk none (some bodyCpfOnly) [])).2 = [] :=
  c3_no_empty_update dbAluno none bodyCpfOnly (by decide) (by decide)

/-- An engagement-creation body whose tutor id is a non-numeric
string. -/
def bodyBadProf : List (String × Value) :=
  [("id_professor", Value.vStr "abc"), ("id_aluno", Value.vInt 2),
   ("id_materia", Value.vInt 3), ("horas_contratadas", Value.vInt 4)]

/-- C5 counterexample — an engagement-creation request whose tutor id is
present but non-numeric is answered 500, not 400, because the `int()`
coercion raises and the top-level except branch converts the raise into a
500 response; no row is inserted. -/
theorem c5_counterexample :
    (CriaConexao.lambda_handler (Event.mk none (some bodyBadProf) []) 1).1.statusCode = 500 ∧
    (CriaConexao.lambda_handler (Event.mk none (some bodyBadProf) []) 1).2 = [] ∧
    (500 : Nat) ≠ 400 := by
  decide

/-- C5 amended — missing or falsy required fields are answered 400 with
no insert; a non-numeric tutor id, subject id or contracted-hours value
makes the `int()` coercion raise, which is surfaced as a 500 response
(not a 400 ValidationError) with no insert; and a non-numeric student id
is not validated at all: the insert is attempted with it unchanged. -/
theorem c5_validation_behaviour :
    (∀ hm (body : List (String × Value)) nextId q, hm ≠ some "OPTIONS" →
      CriaConexao.camposPresentes body = false →
      (CriaConexao.lambda_handler (Event.mk hm (some body) q) nextId).1.statusCode = 400 ∧
      (CriaConexao.lambda_handler (Event.mk hm (some body) q) nextId).2 = []) ∧
    (∀ hm (body : List (String × Value)) nextId q, hm ≠ some "OPTIONS" →
      CriaConexao.camposPresentes body = true →
      pyInt (pyGet body "id_professor") = none →
      (CriaConexao.lambda_handler (Event.mk hm (some body) q) nextId).1.statusCode = 500 ∧
      (CriaConexao.lambda_handler (Event.mk hm (some body) q) nextId).2 = []) ∧
    (∀ hm (body : List (String × Value)) nextId q p, hm ≠ some "OPTIONS" →
      CriaConexao.camposPresentes body = true →
      pyInt (pyGet body "id_professor") = some p →
      pyInt (pyGet body "id_materia") = none →
      (CriaConexao.lambda_handler (Event.mk hm (some body) q) nextId).1.statusCode = 500 ∧
      (CriaConexao.lambda_handler (Event.mk hm (some body) q) nextId).2 = []) ∧
    (∀ hm (body : List (String × Value)) nextId q p m, hm ≠ some "OPTIONS" →
      CriaConexao.camposPresentes body = true →
      pyInt (pyGet body "id_professor") = some p →
      pyInt (pyGet body "id_materia") = some m →
      pyInt (pyGet body "horas_contratadas") = none →
      (CriaConexao.lambda_handler (Event.mk hm (some body) q) nextId).1.statusCode = 500 ∧
      (CriaConexao.lambda_handler (Event.mk hm (some body) q) nextId).2 = []) ∧
    (∀ hm (body : List (String × Value)) nextId q p m h, hm ≠ some "OPTIONS" →
      CriaConexao.camposPresentes body = true →
      pyInt (pyGet body "id_professor") = some p →
      pyInt (pyGet body "id_materia") = some m →
      pyInt (pyGet body "horas_contratadas") = some h →
      (CriaConexao.lambda_handler (Event.mk hm (some body) q) nextId).1.statusCode = 200 ∧
      (CriaConexao.lambda_handler (Event.mk hm (some body) q) nextId).2 =
        [CriaConexao.ConnEvent.insertConexao p (pyGet body "id_aluno") m h "Ativo"]) := by
  refine ⟨?_, ?_, ?_, ?_, ?_⟩
  · intro hm body nextId q h1 h2
    simp [CriaConexao.lambda_handler, h1, h2]
  · intro hm body nextId q h1 h2 h3
    simp [CriaConexao.lambda_handler, h1, h2, h3]
  · intro hm body nextId q p h1 h2 h3 h4
    simp [CriaConexao.lambda_handler, h1, h2, h3, h4]
  · intro hm body nextId q p m h1 h2 h3 h4 h5
    simp [CriaConexao.lambda_handler, h1, h2, h3, h4, h5]
  · intro hm body nextId q p m h h1 h2 h3 h4 h5
    simp [CriaConexao.lambda_handler, h1, h2, h3, h4, h5]

/-- An engagement-creation body with the hours field absent. -/
def bodyConnMissing : List (String × Value) :=
  [("id_professor", Value.vInt 1), ("id_aluno", Value.vInt 2), ("id_materia", Value.vInt 3)]

/-- An engagement-creation body whose subject id is non-numeric. -/
def bodyBadMat : List (String × Value) :=
  [("id_professor", Value.vInt 1), ("id_aluno", Value.vInt 2),
   ("id_materia", Value.vStr "abc"), ("horas_contratadas", Value.vInt 4)]

/-- An engagement-creation body whose hours value is non-numeric. -/
def bodyBadHoras : List (String × Value) :=
  [("id_professor", Value.vInt 1), ("id_aluno", Value.vInt 2),
   ("id_materia", Value.vInt 3), ("horas_contratadas", Value.vStr "abc")]

/-- An engagement-creation body with a numeric-string tutor id and a
non-numeric string student id. -/
def bodyAlunoStr : List (String × Value) :=
  [("id_professor", Value.vStr "1"), ("id_aluno", Value.vStr "xyz"),
   ("id_materia", Value.vInt 3), ("horas_contratadas", Value.vInt 4)]

/-- C5 witness: the amended behaviour at one concrete request per
case. -/
theorem c5_validation_behaviour_witness :
    ((CriaConexao.lambda_handler (Event.mk none (some bodyConnMissing) []) 1).1.statusCode = 400 ∧
      (CriaConexao.lambda_handler (Event.mk none (some bodyConnMissing) []) 1).2 = []) ∧
    ((CriaConexao.lambda_handler (Event.mk none (some bodyBadProf) []) 1).1.statusCode = 500 ∧
      (CriaConexao.lambda_handler (Event.mk none (some bodyBadProf) []) 1).2 = []) ∧
    ((CriaConexao.lambda_handler (Event.mk none (some bodyBadMat) []) 1).1.statusCode = 500 ∧
      (CriaConexao.lambda_handler (Event.mk none (some bodyBadMat) []) 1).2 = []) ∧
    ((CriaConexao.lambda_handler (Event.mk none (some bodyBadHoras) []) 1).1.statusCode = 500 ∧
      (CriaConexao.lambda_handler (Event.mk none (some bodyBadHoras) []) 1).2 = []) ∧
    ((CriaConexao.lambda_handler (Event.mk none (some bodyAlunoStr) []) 1).1.statusCode = 200 ∧
      (CriaConexao.lambda_handler (Event.mk none (some bodyAlunoStr) []) 1).2 =
        [CriaConexao.ConnEvent.insertConexao 1 (pyGet bodyAlunoStr "id_aluno") 3 4 "Ativo"]) :=
  ⟨c5_validation_behaviour.1 none bodyConnMissing 1 [] (by decide) (by decide),
   c5_validation_behaviour.2.1 none bodyBadProf 1 [] (by decide) (by decide) (by decide),
   c5_validation_behaviour.2.2.1 none bodyBadMat 1 [] 1 (by decide) (by decide) (by decide)
     (by decide),
   c5_validation_behaviour.2.2.2.1 none bodyBadHoras 1 [] 1 3 (by decide) (by decide) (by decide)
     (by decide) (by decide),
   c5_validation_behaviour.2.2.2.2 none bodyAlunoStr 1 [] 1 3 4 (by decide) (by decide)
     (by decide) (by decide) (by decide)⟩

/-- A well-formed engagement-creation body. -/
def bodyConnOk : List (String × Value) :=
  [("id_professor", Value.vInt 1), ("id_aluno", Value.vInt 2),
   ("id_materia", Value.vInt 3), ("horas_contratadas", Value.vInt 4)]

/-- A well-formed student-registration body. -/
def bodyCad : List (String × Value) :=
  [("nome", Value.vStr "Ana"), ("cpf", Value.vStr "123")]

/-- C6 counterexample — a successful engagement creation inserts its row
but answers 200, not 201. -/
theorem c6_counterexample :
    (CriaConexao.lambda_handler (Event.mk none (some bodyConnOk) []) 5).1.statusCode = 200 ∧
    (CriaConexao.lambda_handler (Event.mk none (some bodyConnOk) []) 5).2 ≠ [] ∧
    (200 : Nat) ≠ 201 := by
  decide

/-- C6 amended — successful student registrations and payment creations
answer 201, but a successful engagement creation answers 200. -/
theorem c6_created_status_codes :
    (∀ hm (body : List (String × Value)) q,
      (lookup? body "nome").isSome = true → (lookup? body "cpf").isSome = true →
      (CadastrarAluno.lambda_handler (Event.mk hm (some body) q)).1.statusCode = 201 ∧
      (CadastrarAluno.lambda_handler (Event.mk hm (some body) q)).2 ≠ []) ∧
    (∀ hm (body : List (String × Value)) nextId q, hm ≠ some "OPTIONS" →
      GerarPagamento.camposPresentes body = true →
      (GerarPagamento.lambda_handler (Event.mk hm (some body) q) nextId).1.statusCode = 201 ∧
      (GerarPagamento.lambda_handler (Event.mk hm (some body) q) nextId).2 ≠ []) ∧
    (∀ hm (body : List (String × Value)) nextId q p m h, hm ≠ some "OPTIONS" →
      CriaConexao.camposPresentes body = true →
      pyInt (pyGet body "id_professor") = some p →
      pyInt (pyGet body "id_materia") = some m →
      pyInt (pyGet body "horas_contratadas") = some h →
      (CriaConexao.lambda_handler (Event.mk hm (some body) q) nextId).1.statusCode = 200 ∧
      (CriaConexao.lambda_handler (Event.mk hm (some body) q) nextId).2 ≠ []) := by
  refine ⟨?_, ?_, ?_⟩
  · intro hm body q h1 h2
    cases hn : lookup? body "nome" with
    | none => simp [hn] at h1
    | some vn =>
      cases hc : lookup? body "cpf" with
      | none => simp [hc] at h2
      | some vc =>
        simp [CadastrarAluno.lambda_handler, hn, hc, CadastrarAluno.plain_response]
  · intro hm body nextId q h1 h2
    simp [GerarPagamento.lambda_handler, h1, h2, GerarPagamento.cors_response,
      GerarPagamento.processar_pagamento]
  · intro hm body nextId q p m h h1 h2 h3 h4 h5
    simp [CriaConexao.lambda_handler, h1, h2, h3, h4, h5]

/-- C6 witness: the three status codes at concrete successful
requests. -/
theorem c6_created_status_codes_witness :
    ((CadastrarAluno.lambda_handler (Event.mk none (some bodyCad) [])).1.statusCode = 201 ∧
      (CadastrarAluno.lambda_handler (Event.mk none (some bodyCad) [])).2 ≠ []) ∧
    ((GerarPagamento.lambda_handler (Event.mk none (some bodyPay) []) 1).1.statusCode = 201 ∧
      (GerarPagamento.lambda_handler (Event.mk none (some bodyPay) []) 1).2 ≠ []) ∧
    ((CriaConexao.lambda_handler (Event.mk none (some bodyConnOk) []) 5).1.statusCode = 200 ∧
      (CriaConexao.lambda_handler (Event.mk none (some bodyConnOk) []) 5).2 ≠ []) :=
  ⟨c6_created_status_codes.1 none bodyCad [] (by decide) (by decide),
   c6_created_status_codes.2.1 none bodyPay 1 [] (by decide) (by decide),
   c6_created_status_codes.2.2 none bodyConnOk 5 [] 1 3 4 (by decide) (by decide) (by decide)
     (by decide) (by decide)⟩

/-- One converted row contains no Decimal value. -/
theorem convRow_noDec (row : List (String × Value)) :
    (row.map fun kv => (kv.1, Reads.convVal kv.2)).all (fun kv => !(Reads.isDec kv.2)) = true := by
  induction row with
  | nil => rfl
  | cons kv rest ih =>
    rcases kv with ⟨k, v⟩
    simp only [List.map_cons, List.all_cons, Bool.and_eq_true]
    exact ⟨by cases v <;> rfl, ih⟩

/-- One converted row keeps every key, turns every Decimal value into the
float with the same payload, and keeps every non-Decimal value
unchanged, field by field. -/
theorem convRow_pointwise (row : List (String × Value)) :
    List.Forall₂
      (fun kv kv' => kv'.1 = kv.1 ∧
        (∀ q, kv.2 = Value.vDec q → kv'.2 = Value.vFloat q) ∧
        (Reads.isDec kv.2 = false → kv'.2 = kv.2))
      row (row.map fun kv => (kv.1, Reads.convVal kv.2)) := by
  induction row with
  | nil => exact List.Forall₂.nil
  | cons kv rest ih =>
    refine List.Forall₂.cons ?_ ih
    rcases kv with ⟨k, v⟩
    cases v <;> simp [Reads.convVal, Reads.isDec]

/-- C8 — the row conversion of the read handlers removes every Decimal:
the converted rows contain no Decimal value, each Decimal field becomes
the float with the same payload while every other field and every key is
unchanged, and each read handler serializes exactly the converted rows in
its success response. -/
theorem c8_decimal_fields_converted (rows : List (List (String × Value))) :
    Reads.noDecRows (Reads.convert_decimal_fields rows) = true ∧
    List.Forall₂
      (List.Forall₂
        (fun kv kv' => kv'.1 = kv.1 ∧
          (∀ q, kv.2 = Value.vDec q → kv'.2 = Value.vFloat q) ∧
          (Reads.isDec kv.2 = false → kv'.2 = kv.2)))
      rows (Reads.convert_decimal_fields rows) ∧
    (∀ hm q, hm ≠ some "OPTIONS" →
      Reads.paramTruthy (Reads.getParam q "id_aluno") = true →
      (Reads.getpagamentos_handler (Event.mk hm none q) rows).body =
        Body.rows (Reads.convert_decimal_fields rows) ∧
      (Reads.getconexoes_handler (Event.mk hm none q) rows).body =
        Body.rows (Reads.convert_decimal_fields rows)) ∧
    (Reads.buscar_professores_handler rows).body =
      Body.rows (Reads.convert_decimal_fields rows) := by
  refine ⟨?_, ?_, ?_, rfl⟩
  · induction rows with
    | nil => rfl
    | cons row rest ih =>
      simp only [Reads.convert_decimal_fields, List.map_cons, Reads.noDecRows,
        List.all_cons, Bool.and_eq_true] at ih ⊢
      exact ⟨convRow_noDec row, ih⟩
  · induction rows with
    | nil => exact List.Forall₂.nil
    | cons row rest ih =>
      exact List.Forall₂.cons (convRow_pointwise row) ih
  · intro hm q h1 h2
    constructor <;>
      simp [Reads.getpagamentos_handler, Reads.getconexoes_handler, h1, h2]

/-- A result set with one Decimal field and one string field. -/
def rowsSample : List (List (String × Value)) :=
  [[("valor", Value.vDec 150), ("nome", Value.vStr "Ana")]]

/-- C8 witness: the conversion at a concrete result set. -/
theorem c8_decimal_fields_converted_witness :
    Reads.noDecRows (Reads.convert_decimal_fields rowsSample) = true ∧
    (Reads.buscar_professores_handler rowsSample).body =
      Body.rows (Reads.convert_decimal_fields rowsSample) :=
  ⟨(c8_decimal_fields_converted rowsSample).1,
   (c8_decimal_fields_converted rowsSample).2.2.2⟩

/-- C9 counterexample — the student-registration handler answers a
missing-body request with a 400 response that carries no headers at all,
so no cross-origin-allow headers. -/
theorem c9_counterexample :
    (CadastrarAluno.lambda_handler (Event.mk none none [])).1.statusCode = 400 ∧
    (CadastrarAluno.lambda_handler (Event.mk none none [])).1.headers = [] := by
  decide

/-- C9 amended — the CORS headers are not uniform across handlers:
payment creation and the settlement worker attach the full permissive
header set to every response; engagement creation and the two by-student
queries attach the full set except on their 400 validation responses,
which carry only the origin header; tutor search always attaches the
full set; student registration and student update attach no headers at
all. -/
theorem c9_cors_headers :
    (∀ ev nextId,
      (GerarPagamento.lambda_handler ev nextId).1.headers = GerarPagamento.corsHeaders) ∧
    (∀ draws db records,
      (ProcessaPagamento.lambda_handler draws db records).2.2.headers =
        ProcessaPagamento.corsHeaders) ∧
    (∀ ev, (CadastrarAluno.lambda_handler ev).1.headers = []) ∧
    (∀ db ev, (AtualizarAluno.lambda_handler db ev).1.headers = []) ∧
    (∀ ev nextId,
      (CriaConexao.lambda_handler ev nextId).1.headers = CriaConexao.corsHeadersFull ∨
      ((CriaConexao.lambda_handler ev nextId).1.statusCode = 400 ∧
        (CriaConexao.lambda_handler ev nextId).1.headers = CriaConexao.originOnly)) ∧
    (∀ ev rows,
      (Reads.getpagamentos_handler ev rows).headers = Reads.corsHeadersGet ∨
      (Reads.getpagamentos_handler ev rows).headers = Reads.corsHeadersGetCT ∨
      ((Reads.getpagamentos_handler ev rows).statusCode = 400 ∧
        (Reads.getpagamentos_handler ev rows).headers = Reads.originOnly)) ∧
    (∀ ev rows,
      (Reads.getconexoes_handler ev rows).headers = Reads.corsHeadersGet ∨
      (Reads.getconexoes_handler ev rows).headers = Reads.corsHeadersGetCT ∨
      ((Reads.getconexoes_handler ev rows).statusCode = 400 ∧
        (Reads.getconexoes_handler ev rows).headers = Reads.originOnly)) ∧
    (∀ rows, (Reads.buscar_professores_handler rows).headers = Reads.corsHeadersGetCT) := by
  refine ⟨?_, ?_, ?_, ?_, ?_, ?_, ?_, fun rows => rfl⟩
  · intro ev nextId
    rcases ev with ⟨hm, body, q⟩
    by_cases h : hm = some "OPTIONS"
    · simp [GerarPagamento.lambda_handler, h]
    · cases body with
      | none => simp [GerarPagamento.lambda_handler, h, GerarPagamento.cors_response]
      | some b =>
        cases hc : GerarPagamento.camposPresentes b <;>
          simp [GerarPagamento.lambda_handler, h, hc, GerarPagamento.cors_response]
  · intro draws db records
    cases records <;> simp [ProcessaPagamento.lambda_handler, ProcessaPagamento.cors_response]
  · intro ev
    rcases ev with ⟨hm, body, q⟩
    cases body with
    | none => rfl
    | some b =>
      cases hn : lookup? b "nome" <;> cases hc : lookup? b "cpf" <;>
        simp [CadastrarAluno.lambda_handler, hn, hc, CadastrarAluno.plain_response]
  · intro db ev
    rcases ev with ⟨hm, body, q⟩
    cases body with
    | none => rfl
    | some b =>
      cases hc : lookup? b "cpf" with
      | none => simp [AtualizarAluno.lambda_handler, hc, AtualizarAluno.plain_response]
      | some v =>
        cases hex : AtualizarAluno.aluno_existe db (pyGet b "cpf") <;>
          simp [AtualizarAluno.lambda_handler, hc, hex, AtualizarAluno.plain_response]
  · intro ev nextId
    rcases ev with ⟨hm, body, q⟩
    by_cases h : hm = some "OPTIONS"
    · left
      simp [CriaConexao.lambda_handler, h]
    · cases body with
      | none =>
        right
        simp [CriaConexao.lambda_handler, h]
      | some b =>
        cases hc : CriaConexao.camposPresentes b with
        | false =>
          right
          simp [CriaConexao.lambda_handler, h, hc]
        | true =>
          left
          cases hp : pyInt (pyGet b "id_professor") with
          | none => simp [CriaConexao.lambda_handler, h, hc, hp]
          | some p =>
            cases hma : pyInt (pyGet b "id_materia") with
            | none => simp [CriaConexao.lambda_handler, h, hc, hp, hma]
            | some m =>
              cases hh : pyInt (pyGet b "horas_contratadas") with
              | none => simp [CriaConexao.lambda_handler, h, hc, hp, hma, hh]
              | some hr => simp [CriaConexao.lambda_handler, h, hc, hp, hma, hh]
  · intro ev rows
    rcases ev with ⟨hm, body, q⟩
    by_cases h : hm = some "OPTIONS"
    · left
      simp [Reads.getpagamentos_handler, h]
    · cases ht : Reads.paramTruthy (Reads.getParam q "id_aluno") with
      | false =>
        right; right
        simp [Reads.getpagamentos_handler, h, ht]
      | true =>
        right; left
        simp [Reads.getpagamentos_handler, h, ht]
  · intro ev rows
    rcases ev with ⟨hm, body, q⟩
    by_cases h : hm = some "OPTIONS"
    · left
      simp [Reads.getconexoes_handler, h]
    · cases ht : Reads.paramTruthy (Reads.getParam q "id_aluno") with
      | false =>
        right; right
        simp [Reads.getconexoes_handler, h, ht]
      | true =>
        right; left
        simp [Reads.getconexoes_handler, h, ht]

/-- A payment-creation body whose amount is present but zero. -/
def bodyPayZero : List (String × Value) :=
  [("id_conexao", Value.vInt 7), ("valor", Value.vInt 0), ("forma_pagamento", Value.vStr "pix")]

/-- A payment-creation body whose payment method is the empty string. -/
def bodyPayEmptyForma : List (String × Value) :=
  [("id_conexao", Value.vInt 7), ("valor", Value.vDec 150), ("forma_pagamento", Value.vStr "")]

/-- An engagement-creation body whose contracted hours are present but
zero. -/
def bodyConnZeroHoras : List (String × Value) :=
  [("id_professor", Value.vInt 1), ("id_aluno", Value.vInt 2),
   ("id_materia", Value.vInt 3), ("horas_contratadas", Value.vInt 0)]

/-- C10 — required-field validation tests truthiness, not presence: a
payment-creation request with amount 0 or with an empty-string payment
method, and an engagement-creation request with contracted hours 0, are
each answered with the very missing-field 400 response, and no row is
inserted. -/
theorem c10_truthiness_validation :
    (∀ hm (body : List (String × Value)) nextId q, hm ≠ some "OPTIONS" →
      lookup? body "valor" = some (Value.vInt 0) →
      (GerarPagamento.lambda_handler (Event.mk hm (some body) q) nextId).1 =
        GerarPagamento.cors_response 400
          [("error", Value.vStr "Todos os campos sao obrigatorios.")] ∧
      (GerarPagamento.lambda_handler (Event.mk hm (some body) q) nextId).2 = []) ∧
    (∀ hm (body : List (String × Value)) nextId q, hm ≠ some "OPTIONS" →
      lookup? body "forma_pagamento" = some (Value.vStr "") →
      (GerarPagamento.lambda_handler (Event.mk hm (some body) q) nextId).1 =
        GerarPagamento.cors_response 400
          [("error", Value.vStr "Todos os campos sao obrigatorios.")] ∧
      (GerarPagamento.lambda_handler (Event.mk hm (some body) q) nextId).2 = []) ∧
    (∀ hm (body : List (String × Value)) nextId q, hm ≠ some "OPTIONS" →
      lookup? body "horas_contratadas" = some (Value.vInt 0) →
      (CriaConexao.lambda_handler (Event.mk hm (some body) q) nextId).1 =
        Response.mk 400 CriaConexao.originOnly
          (Body.obj [("error", Value.vStr "Todos os campos sao obrigatorios.")]) ∧
      (CriaConexao.lambda_handler (Event.mk hm (some body) q) nextId).2 = []) := by
  refine ⟨?_, ?_, ?_⟩
  · intro hm body nextId q h1 h2
    have hfalse : GerarPagamento.camposPresentes body = false := by
      simp [GerarPagamento.camposPresentes, pyGet, h2, pyTruthy]
    simp [GerarPagamento.lambda_handler, h1, hfalse]
  · intro hm body nextId q h1 h2
    have hfalse : GerarPagamento.camposPresentes body = false := by
      simp [GerarPagamento.camposPresentes, pyGet, h2, pyTruthy]
    simp [GerarPagamento.lambda_handler, h1, hfalse]
  · intro hm body nextId q h1 h2
    have hfalse : CriaConexao.camposPresentes body = false := by
      simp [CriaConexao.camposPresentes, pyGet, h2, pyTruthy]
    simp [CriaConexao.lambda_handler, h1, hfalse]

/-- C10 witness: the three zero-or-empty requests at concrete bodies. -/
theorem c10_truthiness_validation_witness :
    ((GerarPagamento.lambda_handler (Event.mk none (some bodyPayZero) []) 1).1 =
        GerarPagamento.cors_response 400
          [("error", Value.vStr "Todos os campos sao obrigatorios.")] ∧
      (GerarPagamento.lambda_handler (Event.mk none (some bodyPayZero) []) 1).2 = []) ∧
    ((GerarPagamento.lambda_handler (Event.mk none (some bodyPayEmptyForma) []) 1).1 =
        GerarPagamento.cors_response 400
          [("error", Value.vStr "Todos os campos sao obrigatorios.")] ∧
      (GerarPagamento.lambda_handler (Event.mk none (some bodyPayEmptyForma) []) 1).2 = []) ∧
    ((CriaConexao.lambda_handler (Event.mk none (some bodyConnZeroHoras) []) 1).1 =
        Response.mk 400 CriaConexao.originOnly
          (Body.obj [("error", Value.vStr "Todos os campos sao obrigatorios.")]) ∧
      (CriaConexao.lambda_handler (Event.mk none (some bodyConnZeroHoras) []) 1).2 = []) :=
  ⟨c10_truthiness_validation.1 none bodyPayZero 1 [] (by decide) (by decide),
   c10_truthiness_validation.2.1 none bodyPayEmptyForma 1 [] (by decide) (by decide),
   c10_truthiness_validation.2.2 none bodyConnZeroHoras 1 [] (by decide) (by decide)⟩

end TutorApp
